import Mathlib

/-!
Shallow embedding of the `httpclient` and `errx` packages of
`nathanribeiroo/module-dep-projects`.

The Go HTTP client is modelled with explicit state: the client struct is a
record, the builder methods are functions on it, and the network is an
abstract environment (`NetEnv`) supplying the outcome of request
construction and of each transport attempt.  Errors are `Option String`
(`none` = Go `nil` error); response bodies are `Option (List UInt8)`
(`none` = Go `nil` byte slice).
-/

namespace Httpclient

/-- Go `errors` are modelled by their message; a Go `error` value that may be
`nil` is an `Option GoError`. -/
def GoError := String

instance : DecidableEq GoError := inferInstanceAs (DecidableEq String)

/-- `retryableStatus`: the package-level set of status codes worth a retry
(408, 429, 500, 502, 503, 504), embedded as its membership function. -/
def retryableStatus (status : Int) : Bool :=
  status = 408 || status = 429 || status = 500 || status = 502 ||
    status = 503 || status = 504

/-- `OptionsHttpclient` from the source. -/
structure OptionsHttpclient where
  RetryCount : Int
  Timeout : Int

/-- The `HttpClient` struct.  The Go `map[string]string` of headers is
embedded as a function map `String → Option String` (unique keys,
insertion overwrites). -/
structure HttpClient where
  url : String
  headers : String → Option String
  retryCount : Int
  timeout : Int

/-- `NewHttpClient`: fresh client with `Content-Type: application/json`
pre-set; `url` is the Go zero value `""`. -/
def NewHttpClient (ops : OptionsHttpclient) : HttpClient :=
  { url := ""
    headers := fun k => if k = "Content-Type" then some "application/json" else none
    retryCount := ops.RetryCount
    timeout := ops.Timeout }

/-- `SetUrl` (pure view: the updated client, which the Go method returns). -/
def SetUrl (h : HttpClient) (url : String) : HttpClient :=
  { h with url := url }

/-- `SetHeader`: `h.headers[key] = value` (map insert, overwriting). -/
def SetHeader (h : HttpClient) (key value : String) : HttpClient :=
  { h with headers := fun k => if k = key then some value else h.headers k }

/-- `SetBearerToken`: `h.headers["Autorization"] = "Bearer " + token`
(the source spells the key `Autorization`). -/
def SetBearerToken (h : HttpClient) (token : String) : HttpClient :=
  { h with headers := fun k =>
      if k = "Autorization" then some ("Bearer " ++ token) else h.headers k }

/-- An `http.Request`: the target URL and the request headers
(`Header.Set` keeps one value per key, so a function map suffices). -/
structure Request where
  url : String
  reqHeaders : String → Option String

/-- Outcome of reading a received response body (`io.ReadAll`). -/
inductive ReadOutcome where
  | ok (body : List UInt8)
  | readError (e : GoError)

/-- Outcome of one `client.Do` transport attempt. -/
inductive TransportOutcome where
  | transportError (e : GoError)
  | response (status : Int) (read : ReadOutcome)

/-- The network environment: whether `http.NewRequest` fails for a given
URL, and the outcome of each successive transport attempt. -/
structure NetEnv where
  newRequestErr : String → Option GoError
  doAttempt : Nat → Request → TransportOutcome

/-- `setHeaderInNewRequest`: iterates over the client's header map and
`Set`s each pair on the request. -/
def setHeaderInNewRequest (headers : String → Option String) (r : Request) : Request :=
  { r with reqHeaders := fun k =>
      match headers k with
      | some v => some v
      | none => r.reqHeaders k }

/-- Result triple of `SendGet`/`sendClient`:
`(body []byte, statusCode int, err error)`. -/
structure SendResult where
  body : Option (List UInt8)
  statusCode : Int
  err : Option GoError
deriving DecidableEq

/-- `sendClient`: one `client.Do` (attempt number `attempt` against the
environment), then `io.ReadAll` of the body.  Transport failure gives
`(nil, 500, err)`; a read failure gives `(nil, resp.StatusCode, err)`;
otherwise `(bodyBytes, resp.StatusCode, nil)`. -/
def sendClient (env : NetEnv) (attempt : Nat) (request : Request) : SendResult :=
  match env.doAttempt attempt request with
  | .transportError e => ⟨none, 500, some e⟩
  | .response status (.readError e) => ⟨none, status, some e⟩
  | .response status (.ok body) => ⟨some body, status, none⟩

/-- `SendGet`: builds the GET request, applies the headers, and performs a
single call to `sendClient`.  The second component counts the transport
attempts performed (0 when request construction fails, else 1): the
source never loops, so attempt index 0 is the only one consulted. -/
def SendGet (env : NetEnv) (h : HttpClient) : SendResult × Nat :=
  match env.newRequestErr h.url with
  | some e => (⟨none, 500, some e⟩, 0)
  | none =>
    let req := setHeaderInNewRequest h.headers ⟨h.url, fun _ => none⟩
    (sendClient env 0 req, 1)

/-! ### Heap model for the fluent builder (pointer receivers) -/

/-- A heap of `HttpClient` values addressed by pointers (naturals). -/
def Heap := Nat → HttpClient

/-- `SetUrl` as the Go method acts: mutate the pointee and return the
receiver pointer. -/
def setUrlM (σ : Heap) (p : Nat) (url : String) : Heap × Nat :=
  (fun q => if q = p then SetUrl (σ p) url else σ q, p)

/-- `SetHeader` on the heap: mutate the pointee, return the receiver. -/
def setHeaderM (σ : Heap) (p : Nat) (key value : String) : Heap × Nat :=
  (fun q => if q = p then SetHeader (σ p) key value else σ q, p)

/-- `SetBearerToken` on the heap: mutate the pointee, return the receiver. -/
def setBearerTokenM (σ : Heap) (p : Nat) (token : String) : Heap × Nat :=
  (fun q => if q = p then SetBearerToken (σ p) token else σ q, p)

end Httpclient

namespace Errx

/-- `type Code string` with its six constants. -/
def Code := String

instance : DecidableEq Code := inferInstanceAs (DecidableEq String)

def INTERNAL : Code := "INTERNAL"
def BAD_REQUEST : Code := "BAD_REQUEST"
def UNAUTHORIZED : Code := "UNAUTHORIZED"
def FORBIDDEN : Code := "FORBIDDEN"
def NOT_FOUND : Code := "NOT_FOUND"
def CONFLICT : Code := "CONFLICT"

/-- `ToHTTPCode`: switch on the code, default 500. -/
def ToHTTPCode (code : Code) : Int :=
  if code = BAD_REQUEST then 400
  else if code = UNAUTHORIZED then 401
  else if code = FORBIDDEN then 403
  else if code = NOT_FOUND then 404
  else if code = CONFLICT then 409
  else 500

/-- `StatusToCode`: `status >= 500` is INTERNAL, then a switch with
default BAD_REQUEST. -/
def StatusToCode (status : Int) : Code :=
  if status ≥ 500 then INTERNAL
  else if status = 401 then UNAUTHORIZED
  else if status = 403 then FORBIDDEN
  else if status = 404 then NOT_FOUND
  else if status = 409 then CONFLICT
  else BAD_REQUEST

end Errx

namespace Httpclient

/-! ### Concrete environments and clients used by the closed instances -/

/-- An environment in which every attempt yields HTTP 200 with body "ok". -/
def envOk : NetEnv :=
  { newRequestErr := fun _ => none
    doAttempt := fun _ _ => .response 200 (.ok [111, 107]) }

/-- An environment in which request construction always fails. -/
def envConstructFail : NetEnv :=
  { newRequestErr := fun _ => some "missing protocol scheme"
    doAttempt := fun _ _ => .response 200 (.ok []) }

/-- An environment in which every transport attempt fails. -/
def envTransportFail : NetEnv :=
  { newRequestErr := fun _ => none
    doAttempt := fun _ _ => .transportError "connection refused" }

/-- An environment in which a 200 response is received but reading its body
fails. -/
def envReadFail : NetEnv :=
  { newRequestErr := fun _ => none
    doAttempt := fun _ _ => .response 200 (.readError "unexpected EOF") }

/-- The client built by the repository's demo `main`. -/
def clientW : HttpClient :=
  SetUrl (NewHttpClient ⟨5, 2⟩) "https://httpbin.org/get"

/-- C1: `SendGet` performs exactly one transport attempt whenever the
request is constructed, its result is that of that single attempt, and the
outcome is independent of `retryCount` and of the outcomes of any further
attempts (so the retry machinery, `retryableStatus` included, is never
consulted). -/
theorem sendGet_single_attempt (env env' : NetEnv) (h : HttpClient) (n : Int)
    (hreq : env'.newRequestErr = env.newRequestErr)
    (hdo : env'.doAttempt 0 = env.doAttempt 0)
    (hok : env.newRequestErr h.url = none) :
    (SendGet env h).2 = 1 ∧
    (SendGet env h).1 =
      sendClient env 0 (setHeaderInNewRequest h.headers ⟨h.url, fun _ => none⟩) ∧
    SendGet env' { h with retryCount := n } = SendGet env h := by
  refine ⟨?_, ?_, ?_⟩ <;> simp [SendGet, sendClient, hreq, hdo, hok]

/-- Closed instance of `sendGet_single_attempt` on the demo client in the
all-200 environment. -/
theorem sendGet_single_attempt_witness :
    (SendGet envOk clientW).2 = 1 ∧
    (SendGet envOk clientW).1 =
      sendClient envOk 0
        (setHeaderInNewRequest clientW.headers ⟨clientW.url, fun _ => none⟩) ∧
    SendGet envOk { clientW with retryCount := 9 } = SendGet envOk clientW :=
  sendGet_single_attempt envOk envOk clientW 9 rfl rfl rfl

/-- C2: when a response is received and its body is read successfully,
`SendGet` returns `(body, actualStatusCode, nil)` — also for 4xx/5xx
status codes, which are never turned into Go errors. -/
theorem sendGet_success (env : NetEnv) (h : HttpClient) (status : Int)
    (body : List UInt8)
    (hreq : env.newRequestErr h.url = none)
    (hdo : env.doAttempt 0 (setHeaderInNewRequest h.headers ⟨h.url, fun _ => none⟩) =
      .response status (.ok body)) :
    (SendGet env h).1 = ⟨some body, status, none⟩ := by
  simp [SendGet, sendClient, hreq, hdo]

/-- Closed instance of `sendGet_success`: the demo client against the
all-200 environment gets body "ok", status 200 and a nil error. -/
theorem sendGet_success_witness :
    (SendGet envOk clientW).1 = ⟨some [111, 107], 200, none⟩ :=
  sendGet_success envOk clientW 200 [111, 107] rfl rfl

/-- C3: both on request-construction failure and on transport failure,
`SendGet` returns `(nil, 500, err)` with a non-nil error. -/
theorem sendGet_failure_500 (env : NetEnv) (h : HttpClient) (e : GoError)
    (hfail : env.newRequestErr h.url = some e ∨
      (env.newRequestErr h.url = none ∧
        env.doAttempt 0 (setHeaderInNewRequest h.headers ⟨h.url, fun _ => none⟩) =
          .transportError e)) :
    (SendGet env h).1 = ⟨none, 500, some e⟩ := by
  rcases hfail with hc | ⟨hc, ht⟩
  · simp [SendGet, hc]
  · simp [SendGet, sendClient, hc, ht]

/-- Closed instance of `sendGet_failure_500` on the construction-failure
environment. -/
theorem sendGet_failure_500_witness :
    (SendGet envConstructFail clientW).1 = ⟨none, 500, some "missing protocol scheme"⟩ :=
  sendGet_failure_500 envConstructFail clientW "missing protocol scheme" (Or.inl rfl)

/-- C5: when a response is received but reading its body fails, `SendGet`
returns the original response status code with a nil body and the read
error. -/
theorem sendGet_read_error (env : NetEnv) (h : HttpClient) (status : Int)
    (e : GoError)
    (hreq : env.newRequestErr h.url = none)
    (hdo : env.doAttempt 0 (setHeaderInNewRequest h.headers ⟨h.url, fun _ => none⟩) =
      .response status (.readError e)) :
    (SendGet env h).1 = ⟨none, status, some e⟩ := by
  simp [SendGet, sendClient, hreq, hdo]

/-- Closed instance of `sendGet_read_error`: a 200 response whose body
read fails surfaces status 200, not 500. -/
theorem sendGet_read_error_witness :
    (SendGet envReadFail clientW).1 = ⟨none, 200, some "unexpected EOF"⟩ :=
  sendGet_read_error envReadFail clientW 200 "unexpected EOF" rfl rfl

/-- C6: every `SendGet` call yields exactly one of two shapes: a success
`(some body, status, nil)` or a failure `(nil, status, some err)` — never a
non-nil body together with a non-nil error. -/
theorem sendGet_outcome_exclusive (env : NetEnv) (h : HttpClient) :
    (∃ b s, (SendGet env h).1 = ⟨some b, s, none⟩) ∨
    (∃ s e, (SendGet env h).1 = ⟨none, s, some e⟩) := by
  cases hc : env.newRequestErr h.url with
  | some e => exact Or.inr ⟨500, e, by simp [SendGet, hc]⟩
  | none =>
    cases hdo : env.doAttempt 0 (setHeaderInNewRequest h.headers ⟨h.url, fun _ => none⟩) with
    | transportError e => exact Or.inr ⟨500, e, by simp [SendGet, sendClient, hc, hdo]⟩
    | response status read =>
      cases read with
      | ok body => exact Or.inl ⟨body, status, by simp [SendGet, sendClient, hc, hdo]⟩
      | readError e => exact Or.inr ⟨status, e, by simp [SendGet, sendClient, hc, hdo]⟩

/-- C4: the source writes the header key as `Autorization`, not
`Authorization`: after `SetBearerToken("abc")` on a fresh client the
mapping has no `Authorization` key, while `Autorization` maps to
`Bearer abc`. -/
theorem setBearerToken_misspelled_key :
    (SetBearerToken (NewHttpClient ⟨5, 2⟩) "abc").headers "Authorization" = none ∧
    (SetBearerToken (NewHttpClient ⟨5, 2⟩) "abc").headers "Autorization" =
      some ("Bearer " ++ "abc") := by
  constructor <;> simp [SetBearerToken, NewHttpClient]

/-- C4 amended/intended form, evaluated on the code as written: for every
token, `SetBearerToken t` stores `"Bearer " ++ t` under the key the source
actually uses, `Autorization`. -/
theorem setBearerToken_sets_bearer (h : HttpClient) (t : String) :
    (SetBearerToken h t).headers "Autorization" = some ("Bearer " ++ t) := by
  simp [SetBearerToken]

/-- C7: inserting twice under the same key overwrites — `SetHeader k v1`
then `SetHeader k v2` leaves the client exactly as `SetHeader k v2`
alone. -/
theorem setHeader_last_wins (h : HttpClient) (k v1 v2 : String) :
    SetHeader (SetHeader h k v1) k v2 = SetHeader h k v2 := by
  cases h with
  | mk url headers retryCount timeout =>
    simp only [SetHeader, HttpClient.mk.injEq, true_and, and_true]
    funext k'
    by_cases hk : k' = k <;> simp [hk]

/-- C8: `NewHttpClient` pre-sets `Content-Type: application/json`, copies
the supplied retry count and timeout, and leaves the URL empty. -/
theorem newHttpClient_defaults (ops : OptionsHttpclient) :
    (NewHttpClient ops).headers "Content-Type" = some "application/json" ∧
    (NewHttpClient ops).retryCount = ops.RetryCount ∧
    (NewHttpClient ops).timeout = ops.Timeout ∧
    (NewHttpClient ops).url = "" := by
  refine ⟨?_, rfl, rfl, rfl⟩
  simp [NewHttpClient]

/-- C9: each builder method returns the very pointer it was invoked on and
mutates only that pointee; consequently a fluent chain
`SetUrl → SetHeader → SetBearerToken` threads one single instance, whose
final state carries all three updates, all other heap cells untouched. -/
theorem builder_returns_receiver (σ : Heap) (p : Nat) (u k v t : String) :
    (setUrlM σ p u).2 = p ∧
    (setHeaderM σ p k v).2 = p ∧
    (setBearerTokenM σ p t).2 = p ∧
    (setUrlM σ p u).1 p = SetUrl (σ p) u ∧
    (setHeaderM σ p k v).1 p = SetHeader (σ p) k v ∧
    (setBearerTokenM σ p t).1 p = SetBearerToken (σ p) t ∧
    ((setBearerTokenM (setHeaderM (setUrlM σ p u).1 (setUrlM σ p u).2 k v).1
        (setHeaderM (setUrlM σ p u).1 (setUrlM σ p u).2 k v).2 t).2 = p ∧
      ∀ q, (setBearerTokenM (setHeaderM (setUrlM σ p u).1 (setUrlM σ p u).2 k v).1
          (setHeaderM (setUrlM σ p u).1 (setUrlM σ p u).2 k v).2 t).1 q =
        if q = p then SetBearerToken (SetHeader (SetUrl (σ p) u) k v) t else σ q) := by
  refine ⟨rfl, rfl, rfl, by simp [setUrlM], by simp [setHeaderM],
    by simp [setBearerTokenM], rfl, ?_⟩
  intro q
  by_cases hq : q = p <;> simp [setUrlM, setHeaderM, setBearerTokenM, hq]

end Httpclient

namespace Errx

/-- C10: on each of the six defined `Code` constants, `StatusToCode` is a
left inverse of `ToHTTPCode`. -/
theorem statusToCode_left_inverse (c : Code)
    (hc : c ∈ [INTERNAL, BAD_REQUEST, UNAUTHORIZED, FORBIDDEN, NOT_FOUND, CONFLICT]) :
    StatusToCode (ToHTTPCode c) = c := by
  simp only [List.mem_cons, List.not_mem_nil, or_false] at hc
  rcases hc with rfl | rfl | rfl | rfl | rfl | rfl <;> decide

/-- Closed instances of `statusToCode_left_inverse` at INTERNAL (the
`default`-branch constant) and NOT_FOUND. -/
theorem statusToCode_left_inverse_witness :
    StatusToCode (ToHTTPCode INTERNAL) = INTERNAL ∧
    StatusToCode (ToHTTPCode NOT_FOUND) = NOT_FOUND :=
  ⟨statusToCode_left_inverse INTERNAL (by decide),
    statusToCode_left_inverse NOT_FOUND (by decide)⟩

end Errx
